import Mathlib

/- Shallow embedding of the Manim cloud rendering service:
   variant A is src/cloud-render/app.py (Google Cloud deployment,
   object-storage upload) and variant B is
   src/cloud-render/render-com/app.py (Render.com deployment, local
   retention with download/status endpoints).  Python strings become
   Lean `String`s, JSON dicts become association lists
   `List (String × JVal)` preserving insertion order, byte contents
   become `List Nat`, and floats that only package exact integer data
   (`video_size_mb = len / (1024*1024)`) are kept as an exact
   numerator/denominator pair.  The external world of one render call
   (the outcome of the manim subprocess, the files present in the
   request's output directory afterwards, the availability and outcome
   of the storage client) is supplied by an environment record, and the
   filesystem / subprocess side effects performed by the call are
   reported in an `Effects` record alongside the returned dict. -/

/-- Characterwise prefix test on character lists (Python `startswith`
restricted to what the service needs; written from scratch so that the
kernel can evaluate it). -/
def isPrefixL : List Char → List Char → Bool
  | [], _ => true
  | _ :: _, [] => false
  | a :: as, b :: bs => a == b && isPrefixL as bs

/-- Characterwise contiguous-substring test: `isInfixL pat s` is the
Python expression `pat in s` on strings. -/
def isInfixL (pat : List Char) : List Char → Bool
  | [] => isPrefixL pat []
  | c :: rest => isPrefixL pat (c :: rest) || isInfixL pat rest

/-- Python `pat in s` for strings. -/
def strHasSub (s pat : String) : Bool := isInfixL pat.data s.data

/-- Characterwise suffix test on character lists. -/
def isSuffixL (pat s : List Char) : Bool := isPrefixL pat.reverse s.reverse

/-- `strEndsWith s suf` : the filename filter used to model
`Path.rglob` patterns of the shape `*.{ext}` (a relative path matches
the pattern exactly when its final component ends in `.ext`; nested
directories are abstracted into the stored file name). -/
def strEndsWith (s suf : String) : Bool := isSuffixL suf.data s.data

/-- JSON-like values appearing in the service's response dicts.
`frac num den` stands for the exact value of the float `num / den`
(used only for the `video_size_mb` field). -/
inductive JVal where
  | s (v : String)
  | n (v : Nat)
  | b (v : Bool)
  | null
  | frac (num den : Nat)
  deriving Repr, DecidableEq

/-- A file found in a request's output directory: its (relative) name
and its byte contents.  `stat().st_size` of a file is the length of its
contents. -/
structure FsFile where
  name : String
  contents : List Nat
  deriving Repr, DecidableEq

/-- Outcome of the one `subprocess.run` call of a render:
either the timeout fires (`subprocess.TimeoutExpired`) or the process
completes with an exit code and captured stdout/stderr. -/
inductive SubprocOutcome where
  | timeoutExpired
  | completed (returncode : Int) (stdout stderr : String)
  deriving Repr, DecidableEq

/-- Filesystem / subprocess side effects performed by one
`render_script` call. -/
structure Effects where
  scriptWritten : Bool
  scriptDeleted : Bool
  subprocInvoked : Bool
  cmd : List String
  outputDirCreated : Bool
  outputDirRemoved : Bool
  uploadAttempted : Bool
  deriving Repr, DecidableEq

/-- The scratch script file exists after the call exactly when it was
written and never deleted. -/
def Effects.scriptFilePresent (e : Effects) : Bool :=
  e.scriptWritten && !e.scriptDeleted

/-- Config.MAX_RENDER_TIME default (env overrides abstracted away). -/
def MAX_RENDER_TIME : Nat := 3600

/-- Config.DEFAULT_QUALITY default. -/
def DEFAULT_QUALITY : String := "medium_quality"

/-- Config.DEFAULT_FORMAT default. -/
def DEFAULT_FORMAT : String := "mp4"

/-- Config.BUCKET_NAME default (variant A). -/
def BUCKET_NAME : String := "manim-next-videos"

/-- Config.TEMP_DIR. -/
def TEMP_DIR : String := "/app/temp"

/-- Config.OUTPUT_DIR. -/
def OUTPUT_DIR : String := "/app/output"

/-- Python truthiness of an optional string argument:
`None` and the empty string are falsy. -/
def pyTruthy : Option String → Bool
  | none => false
  | some s => !s.isEmpty

/-- Python `x or d` for an optional string `x`. -/
def pyOr (x : Option String) (d : String) : String :=
  match x with
  | none => d
  | some s => if s.isEmpty then d else s

/-- The fixed denylist scanned by `validate_script`
(`dangerous_imports`, identical in both variants). -/
def dangerous_imports : List String :=
  ["subprocess", "os.system", "eval", "exec", "open",
   "__import__", "compile", "globals", "locals"]

/-- `ManimRenderer.validate_script` (identical in both variants): scan
the denylist in order and report the first entry occurring in the
script; then require a manim import; then require both `class` and
`Scene` to occur.  The body is pure, so the enclosing
`try/except` of the source can never fire. -/
def validate_script (script_content : String) : Bool × String :=
  match dangerous_imports.find? (fun d => strHasSub script_content d) with
  | some dangerous => (false, "Dangerous function/import detected: " ++ dangerous)
  | none =>
    if !strHasSub script_content "from manim import" &&
       !strHasSub script_content "import manim" then
      (false, "Script must import manim")
    else if !strHasSub script_content "class" ||
            !strHasSub script_content "Scene" then
      (false, "Script must contain a Scene class")
    else
      (true, "Script validation passed")

/-- Variant A's `quality_mapping` table from quality names to short
manim CLI quality flags. -/
def quality_mapping : List (String × String) :=
  [("low_quality", "l"), ("medium_quality", "m"), ("high_quality", "h"),
   ("production_quality", "p"), ("4k_quality", "k")]

/-- The uniform failure dict produced by `render_script`'s exception
handlers in both variants. -/
def failDict (error request_id timestamp : String) : List (String × JVal) :=
  [("success", JVal.b false), ("error", JVal.s error),
   ("request_id", JVal.s request_id), ("timestamp", JVal.s timestamp)]

/-- `scene_name` as it appears in the success dict (`None` → null). -/
def optStr : Option String → JVal
  | none => JVal.null
  | some s => JVal.s s

/-- Environment of one variant-A render call: subprocess outcome, the
files present in the request's output directory after the subprocess,
whether `self.storage_client` is set, whether the GCS upload raises
(`some msg` = the raised exception's message), the elapsed wall time
and the timestamp taken when building the result dict. -/
structure EnvA where
  subproc : SubprocOutcome
  outputFiles : List FsFile
  storageAvailable : Bool
  uploadError : Option String
  renderTime : Nat
  timestamp : String
  deriving Repr, DecidableEq

/-- Environment of one variant-B render call. -/
structure EnvB where
  subproc : SubprocOutcome
  outputFiles : List FsFile
  renderTime : Nat
  timestamp : String
  deriving Repr, DecidableEq

/-- Effects record of a render call that failed validation: nothing was
written, no directory was created, no subprocess ran. -/
def effNone : Effects :=
  { scriptWritten := false, scriptDeleted := false, subprocInvoked := false,
    cmd := [], outputDirCreated := false, outputDirRemoved := false,
    uploadAttempted := false }

/-- Effects record after the script file was written, the output
directory created and the subprocess launched with command `cmd`. -/
def effRun (cmd : List String) : Effects :=
  { scriptWritten := true, scriptDeleted := false, subprocInvoked := true,
    cmd := cmd, outputDirCreated := true, outputDirRemoved := false,
    uploadAttempted := false }

/-- `ManimRenderer.render_script` of variant A
(src/cloud-render/app.py lines 130-310).  The `try` body is modelled
branch by branch; every `raise` that the source's `except Exception`
handler would catch is modelled by returning the corresponding
`failDict`, and the `finally` block's unconditional
`script_file.unlink(missing_ok=True)` is modelled by forcing
`scriptDeleted := true` on the effects of every path. -/
def render_scriptA (env : EnvA) (script_content request_id : String)
    (quality format scene_name : Option String) :
    List (String × JVal) × Effects :=
  let quality := pyOr quality DEFAULT_QUALITY
  let format := pyOr format DEFAULT_FORMAT
  let quality_flag := (quality_mapping.lookup quality).getD "m"
  let core :
      List (String × JVal) × Effects :=
    if (validate_script script_content).1 then
      let script_file := TEMP_DIR ++ "/script_" ++ request_id ++ ".py"
      let render_output_dir := OUTPUT_DIR ++ "/" ++ request_id
      let cmd :=
        ["manim", script_file, "--output_file", "video_" ++ request_id,
         "--media_dir", render_output_dir, "--quality", quality_flag,
         "--format", format, "--disable_caching"] ++
        (if pyTruthy scene_name then [scene_name.getD ""] else [])
      match env.subproc with
      | SubprocOutcome.timeoutExpired =>
        (failDict ("Rendering timeout after " ++ toString MAX_RENDER_TIME ++ " seconds")
           request_id env.timestamp, effRun cmd)
      | SubprocOutcome.completed returncode stdout stderr =>
        if returncode != 0 then
          (failDict ("Rendering failed: Manim rendering failed: " ++ stderr)
             request_id env.timestamp, effRun cmd)
        else
          match env.outputFiles.filter (fun f => strEndsWith f.name ("." ++ format)) with
          | [] =>
            (failDict "Rendering failed: No video file found after rendering"
               request_id env.timestamp, effRun cmd)
          | video_file :: _ =>
            if env.storageAvailable then
              match env.uploadError with
              | some e =>
                (failDict ("Rendering failed: " ++ e) request_id env.timestamp,
                 { effRun cmd with uploadAttempted := true })
              | none =>
                let blob_name :=
                  "videos/" ++ request_id ++ "/video_" ++ request_id ++ "." ++ format
                let gcs_url := "gs://" ++ BUCKET_NAME ++ "/" ++ blob_name
                ([("success", JVal.b true), ("request_id", JVal.s request_id),
                  ("video_file", JVal.s (render_output_dir ++ "/" ++ video_file.name)),
                  ("gcs_url", JVal.s gcs_url), ("blob_name", JVal.s blob_name),
                  ("file_size", JVal.n video_file.contents.length),
                  ("render_time", JVal.n env.renderTime),
                  ("quality", JVal.s quality), ("format", JVal.s format),
                  ("scene_name", optStr scene_name),
                  ("timestamp", JVal.s env.timestamp),
                  ("stdout", JVal.s stdout), ("stderr", JVal.s stderr)],
                 { effRun cmd with uploadAttempted := true })
            else
              ([("success", JVal.b true), ("request_id", JVal.s request_id),
                ("video_file", JVal.s (render_output_dir ++ "/" ++ video_file.name)),
                ("gcs_url", JVal.null), ("blob_name", JVal.null),
                ("file_size", JVal.n video_file.contents.length),
                ("render_time", JVal.n env.renderTime),
                ("quality", JVal.s quality), ("format", JVal.s format),
                ("scene_name", optStr scene_name),
                ("timestamp", JVal.s env.timestamp),
                ("stdout", JVal.s stdout), ("stderr", JVal.s stderr)],
               effRun cmd)
    else
      (failDict ("Rendering failed: Script validation failed: " ++
           (validate_script script_content).2)
         request_id env.timestamp, effNone)
  (core.1, { core.2 with scriptDeleted := true })

/-- The standard base64 alphabet used by Python's `base64.b64encode`. -/
def b64alphabet : List Char :=
  "ABCDEFGHIJKLMNOPQRSTUVWXYZabcdefghijklmnopqrstuvwxyz0123456789+/".data

/-- Character for a 6-bit group. -/
def b64char (i : Nat) : Char := b64alphabet.getD i 'A'

/-- Split a byte sequence into big-endian 6-bit groups, the standard
base64 grouping: three bytes give four sextets, a trailing pair gives
three sextets and a trailing single byte gives two. -/
def sextets : List Nat → List Nat
  | a :: b :: c :: rest =>
    [a / 4, a % 4 * 16 + b / 16, b % 16 * 4 + c / 64, c % 64] ++ sextets rest
  | [a, b] => [a / 4, a % 4 * 16 + b / 16, b % 16 * 4]
  | [a] => [a / 4, a % 4 * 16]
  | [] => []

/-- The `=` padding appended by base64 so that the output length is a
multiple of four. -/
def b64pad (n : Nat) : List Char :=
  if n % 3 == 1 then ['=', '=']
  else if n % 3 == 2 then ['=']
  else []

/-- Python `base64.b64encode(bytes).decode('utf-8')`. -/
def b64encode (bs : List Nat) : String :=
  List.asString ((sextets bs).map b64char ++ b64pad bs.length)

/-- Index of a character in the base64 alphabet (a client-side
decoder's character table). -/
def b64charIdx (c : Char) : Option Nat :=
  b64alphabet.findIdx? (fun a => a == c)

/-- Decode each base64 character to its 6-bit value. -/
def decodeChars : List Char → Option (List Nat)
  | [] => some []
  | c :: rest =>
    match b64charIdx c, decodeChars rest with
    | some i, some is => some (i :: is)
    | _, _ => none

/-- Reassemble bytes from big-endian 6-bit groups: the inverse of
`sextets`, rejecting a lone trailing sextet. -/
def unsextets : List Nat → Option (List Nat)
  | w :: x :: y :: z :: rest =>
    match unsextets rest with
    | some tail =>
      some ([w * 4 + x / 16, x % 16 * 16 + y / 4, y % 4 * 64 + z] ++ tail)
    | none => none
  | [w, x] => some [w * 4 + x / 16]
  | [w, x, y] => some [w * 4 + x / 16, x % 16 * 16 + y / 4]
  | [_] => none
  | [] => some []

/-- Standard base64 decoding (what a client performs on the
`video_base64` field): drop padding, map characters to 6-bit values,
reassemble bytes. -/
def b64decode (s : String) : Option (List Nat) :=
  match decodeChars (s.data.filter (fun c => c != '=')) with
  | some is => unsextets is
  | none => none

/-- `ManimRenderer.render_script` of variant B
(src/cloud-render/render-com/app.py lines 110-252): no quality mapping
table (the quality name is passed directly as a long-form flag), no
storage upload, and an optional inline base64 copy of the artifact.
The `finally` cleanup is modelled exactly as in variant A. -/
def render_scriptB (env : EnvB) (script_content request_id : String)
    (quality format scene_name : Option String) (return_base64 : Bool) :
    List (String × JVal) × Effects :=
  let quality := pyOr quality DEFAULT_QUALITY
  let format := pyOr format DEFAULT_FORMAT
  let core :
      List (String × JVal) × Effects :=
    if (validate_script script_content).1 then
      let script_file := TEMP_DIR ++ "/script_" ++ request_id ++ ".py"
      let render_output_dir := OUTPUT_DIR ++ "/" ++ request_id
      let cmd :=
        ["manim", script_file, "--output_file", "video_" ++ request_id,
         "--media_dir", render_output_dir, "--" ++ quality,
         "--format", format, "--disable_caching"] ++
        (if pyTruthy scene_name then [scene_name.getD ""] else [])
      match env.subproc with
      | SubprocOutcome.timeoutExpired =>
        (failDict ("Rendering timeout after " ++ toString MAX_RENDER_TIME ++ " seconds")
           request_id env.timestamp, effRun cmd)
      | SubprocOutcome.completed returncode stdout stderr =>
        if returncode != 0 then
          (failDict ("Rendering failed: Manim rendering failed: " ++ stderr)
             request_id env.timestamp, effRun cmd)
        else
          match env.outputFiles.filter (fun f => strEndsWith f.name ("." ++ format)) with
          | [] =>
            (failDict "Rendering failed: No video file found after rendering"
               request_id env.timestamp, effRun cmd)
          | video_file :: _ =>
            ([("success", JVal.b true), ("request_id", JVal.s request_id),
              ("video_file_path", JVal.s (render_output_dir ++ "/" ++ video_file.name)),
              ("file_size", JVal.n video_file.contents.length),
              ("render_time", JVal.n env.renderTime),
              ("quality", JVal.s quality), ("format", JVal.s format),
              ("scene_name", optStr scene_name),
              ("timestamp", JVal.s env.timestamp),
              ("stdout", JVal.s stdout), ("stderr", JVal.s stderr)] ++
             (if return_base64 then
                [("video_base64", JVal.s (b64encode video_file.contents)),
                 ("video_size_mb", JVal.frac video_file.contents.length (1024 * 1024))]
              else []),
             effRun cmd)
    else
      (failDict ("Rendering failed: Script validation failed: " ++
           (validate_script script_content).2)
         request_id env.timestamp, effNone)
  (core.1, { core.2 with scriptDeleted := true })

/-- An HTTP response as produced by `jsonify(...), code`. -/
structure HttpResponse where
  status : Nat
  body : List (String × JVal)
  deriving Repr, DecidableEq

/-- Observable side effects of one handler invocation: whether
`uuid.uuid4()` ran, whether the Renderer was called, and the render
call's effects when it was. -/
structure HandlerTrace where
  uuidGenerated : Bool
  rendererCalled : Bool
  renderEffects : Option Effects
  deriving Repr, DecidableEq

/-- The parsed JSON body of a POST /render request.  `none` fields are
absent keys; a `data.get` with a default is modelled by `Option.getD`.
Variant A ignores `return_base64`. -/
structure ReqBody where
  script : Option String
  quality : Option String
  format : Option String
  scene_name : Option String
  return_base64 : Bool
  deriving Repr, DecidableEq

/-- Truthiness of `result['success']` as tested by the handlers (by
construction of both renderers the key is always present and boolean). -/
def dictSuccess (result : List (String × JVal)) : Bool :=
  match result.lookup "success" with
  | some (JVal.b b) => b
  | _ => false

/-- `render_video` of variant A (src/cloud-render/app.py lines
375-424).  `freshId` is the value produced by `str(uuid.uuid4())` on
line 380, which runs before the body is parsed, so the trace records a
generated identifier on every path; `data = none` covers a missing or
falsy JSON body. -/
def render_videoA (env : EnvA) (freshId : String) (data : Option ReqBody) :
    HttpResponse × HandlerTrace :=
  match data with
  | none =>
    (⟨400, [("error", JVal.s "No JSON data provided")]⟩,
     { uuidGenerated := true, rendererCalled := false, renderEffects := none })
  | some d =>
    if !pyTruthy d.script then
      (⟨400, [("error", JVal.s "No script content provided")]⟩,
       { uuidGenerated := true, rendererCalled := false, renderEffects := none })
    else
      let r := render_scriptA env (d.script.getD "") freshId
        (some (d.quality.getD DEFAULT_QUALITY)) (some (d.format.getD DEFAULT_FORMAT))
        d.scene_name
      (⟨if dictSuccess r.1 then 200 else 500, r.1⟩,
       { uuidGenerated := true, rendererCalled := true, renderEffects := some r.2 })

/-- `render_video` of variant B (src/cloud-render/render-com/app.py
lines 268-320); identical to variant A's handler except for the
`return_base64` option. -/
def render_videoB (env : EnvB) (freshId : String) (data : Option ReqBody) :
    HttpResponse × HandlerTrace :=
  match data with
  | none =>
    (⟨400, [("error", JVal.s "No JSON data provided")]⟩,
     { uuidGenerated := true, rendererCalled := false, renderEffects := none })
  | some d =>
    if !pyTruthy d.script then
      (⟨400, [("error", JVal.s "No script content provided")]⟩,
       { uuidGenerated := true, rendererCalled := false, renderEffects := none })
    else
      let r := render_scriptB env (d.script.getD "") freshId
        (some (d.quality.getD DEFAULT_QUALITY)) (some (d.format.getD DEFAULT_FORMAT))
        d.scene_name d.return_base64
      (⟨if dictSuccess r.1 then 200 else 500, r.1⟩,
       { uuidGenerated := true, rendererCalled := true, renderEffects := some r.2 })

/-- `get_render_status` of variant B
(src/cloud-render/render-com/app.py lines 347-376): search the
request's output directory for `*.mp4` files (the pattern is the fixed
literal `'*.mp4'`, not the render's requested format) and report
completed with size and download link, or not_found. -/
def get_render_statusB (files : List FsFile) (request_id : String) : HttpResponse :=
  match files.filter (fun f => strEndsWith f.name ".mp4") with
  | video_file :: _ =>
    ⟨200, [("request_id", JVal.s request_id), ("status", JVal.s "completed"),
           ("file_size", JVal.n video_file.contents.length),
           ("download_url", JVal.s ("/download/" ++ request_id))]⟩
  | [] =>
    ⟨200, [("request_id", JVal.s request_id), ("status", JVal.s "not_found"),
           ("message", JVal.s "Video file not found")]⟩

/-- The quality-flag table exactly as the claim and the spec word it
(low→l, medium→m, high→h, production→p, 4k→k, unknown defaults to m),
to be compared with the `quality_mapping` lookup the code performs. -/
def claimQualityFlag (q : String) : String :=
  if q = "low_quality" then "l"
  else if q = "medium_quality" then "m"
  else if q = "high_quality" then "h"
  else if q = "production_quality" then "p"
  else if q = "4k_quality" then "k"
  else "m"


/-- Decoding a base64 character produced by the encoder's table
recovers the 6-bit value. -/
theorem b64charIdx_b64char : ∀ i, i < 64 → b64charIdx (b64char i) = some i := by decide

theorem b64char_ne_pad : ∀ i, i < 64 → (b64char i != '=') = true := by decide

theorem sextets_lt (bs : List Nat) (h : ∀ b ∈ bs, b < 256) :
    ∀ i ∈ sextets bs, i < 64 := by
  induction bs using sextets.induct with
  | case1 a b c rest ih =>
    intro i hi
    have ha : a < 256 := h a (by simp)
    have hb : b < 256 := h b (by simp)
    have hc : c < 256 := h c (by simp)
    rw [sextets] at hi
    simp only [List.mem_append, List.mem_cons, List.not_mem_nil, or_false] at hi
    rcases hi with (h1 | h1 | h1 | h1) | h1
    · omega
    · omega
    · omega
    · omega
    · exact ih (fun x hx => h x (by simp [hx])) i h1
  | case2 a b =>
    intro i hi
    have ha : a < 256 := h a (by simp)
    have hb : b < 256 := h b (by simp)
    rw [sextets] at hi
    simp only [List.mem_cons, List.not_mem_nil, or_false] at hi
    rcases hi with h1 | h1 | h1 <;> omega
  | case3 a =>
    intro i hi
    have ha : a < 256 := h a (by simp)
    rw [sextets] at hi
    simp only [List.mem_cons, List.not_mem_nil, or_false] at hi
    rcases hi with h1 | h1 <;> omega
  | case4 =>
    intro i hi
    rw [sextets] at hi
    simp at hi

theorem unsextets_sextets (bs : List Nat) (h : ∀ b ∈ bs, b < 256) :
    unsextets (sextets bs) = some bs := by
  induction bs using sextets.induct with
  | case1 a b c rest ih =>
    have ha : a < 256 := h a (by simp)
    have hb : b < 256 := h b (by simp)
    have hc : c < 256 := h c (by simp)
    have ih' := ih (fun x hx => h x (by simp [hx]))
    rw [sextets]
    simp only [List.cons_append, List.nil_append]
    rw [unsextets, ih']
    have e1 : a / 4 * 4 + (a % 4 * 16 + b / 16) / 16 = a := by omega
    have e2 : (a % 4 * 16 + b / 16) % 16 * 16 + (b % 16 * 4 + c / 64) / 4 = b := by omega
    have e3 : (b % 16 * 4 + c / 64) % 4 * 64 + c % 64 = c := by omega
    rw [e1, e2, e3]
    simp
  | case2 a b =>
    have ha : a < 256 := h a (by simp)
    have hb : b < 256 := h b (by simp)
    rw [sextets, unsextets]
    have e1 : a / 4 * 4 + (a % 4 * 16 + b / 16) / 16 = a := by omega
    have e2 : (a % 4 * 16 + b / 16) % 16 * 16 + b % 16 * 4 / 4 = b := by omega
    rw [e1, e2]
  | case3 a =>
    have ha : a < 256 := h a (by simp)
    rw [sextets, unsextets]
    have e1 : a / 4 * 4 + a % 4 * 16 / 16 = a := by omega
    rw [e1]
  | case4 => rw [sextets, unsextets]

theorem decodeChars_map (l : List Nat) (h : ∀ i ∈ l, i < 64) :
    decodeChars (l.map b64char) = some l := by
  induction l with
  | nil => simp [decodeChars]
  | cons i rest ih =>
    have hi : i < 64 := h i (by simp)
    have ih' := ih (fun x hx => h x (by simp [hx]))
    simp only [List.map_cons]
    rw [decodeChars, b64charIdx_b64char i hi, ih']

theorem filter_pad (n : Nat) : (b64pad n).filter (fun c => c != '=') = [] := by
  rw [b64pad]
  split
  · rfl
  · split <;> rfl

theorem b64_roundtrip (bs : List Nat) (h : ∀ b ∈ bs, b < 256) :
    b64decode (b64encode bs) = some bs := by
  have hdata : (b64encode bs).data = (sextets bs).map b64char ++ b64pad bs.length := rfl
  rw [b64decode, hdata, List.filter_append, filter_pad, List.append_nil]
  have hfil : ((sextets bs).map b64char).filter (fun c => c != '=') =
      (sextets bs).map b64char := by
    rw [List.filter_eq_self]
    intro c hc
    rcases List.mem_map.mp hc with ⟨i, hi, rfl⟩
    exact b64char_ne_pad i (sextets_lt bs h i hi)
  rw [hfil, decodeChars_map _ (sextets_lt bs h)]
  exact unsextets_sextets bs h

/-- `List.find?` returns the element at the first index where the
predicate holds. -/
theorem find?_at_first_index {α : Type} (p : α → Bool) :
    ∀ (l : List α) (i : Nat) (hi : i < l.length),
    p (l.get ⟨i, hi⟩) = true →
    (∀ j (hj : j < l.length), j < i → p (l.get ⟨j, hj⟩) = false) →
    l.find? p = some (l.get ⟨i, hi⟩)
  | a :: t, 0, hi, hp, _ => by
    simpa using List.find?_cons_of_pos t (by simpa using hp)
  | a :: t, Nat.succ n, hi, hp, hbef => by
    have ha : p a = false := by
      simpa using hbef 0 (by simp) (Nat.succ_pos n)
    rw [List.find?_cons_of_neg t (by simp [ha])]
    have := find?_at_first_index p t n (by simpa using hi) (by simpa using hp)
      (fun j hj hlt => by simpa using hbef (j + 1) (by simpa using hj) (by omega))
    simpa using this
  | [], i, hi, _, _ => absurd hi (by simp)

/-- Claim C10 (confirmed): for every script containing at least one
denylisted substring, `validate_script` fails with a message naming the
first matching entry in the fixed denylist order (subprocess, os.system,
eval, exec, open, __import__, compile, globals, locals), even when
several entries match; the verdict is independent of the manim-import
and Scene-class content, so the denylist check preempts those checks. -/
theorem c10_first_denylist_match (s : String) (i : Nat)
    (hi : i < dangerous_imports.length)
    (hhit : strHasSub s (dangerous_imports.get ⟨i, hi⟩) = true)
    (hfirst : ∀ j (hj : j < dangerous_imports.length), j < i →
      strHasSub s (dangerous_imports.get ⟨j, hj⟩) = false) :
    validate_script s =
      (false, "Dangerous function/import detected: " ++ dangerous_imports.get ⟨i, hi⟩) := by
  have hfind := find?_at_first_index (fun d => strHasSub s d)
    dangerous_imports i hi hhit hfirst
  rw [validate_script, hfind]

/-- Witness for C10: a script containing both `eval` (index 2) and
`exec` (index 3) is reported for `eval`, the earlier entry. -/
theorem c10_witness :
    validate_script "use eval and exec" =
      (false, "Dangerous function/import detected: eval") := by
  have h := c10_first_denylist_match "use eval and exec" 2 (by decide) (by decide)
    (by decide)
  simpa using h

/-- Claim C4 (amended): variant B's status endpoint searches the
identifier's output directory for files with the fixed `.mp4` extension
— not the requested render's format — and reports completed with the
file size and a download link when one is found, and a terminal
not_found status otherwise. -/
theorem c4_status_mp4 (files : List FsFile) (rid : String) :
    (files.filter (fun f => strEndsWith f.name ".mp4") = [] →
      get_render_statusB files rid =
        ⟨200, [("request_id", JVal.s rid), ("status", JVal.s "not_found"),
               ("message", JVal.s "Video file not found")]⟩) ∧
    (∀ vf rest, files.filter (fun f => strEndsWith f.name ".mp4") = vf :: rest →
      get_render_statusB files rid =
        ⟨200, [("request_id", JVal.s rid), ("status", JVal.s "completed"),
               ("file_size", JVal.n vf.contents.length),
               ("download_url", JVal.s ("/download/" ++ rid))]⟩) := by
  constructor
  · intro h
    rw [get_render_statusB, h]
  · intro vf rest h
    rw [get_render_statusB, h]

/-- Counterexample to C4 as stated: a render with requested format
`gif` leaves `video_1.gif` in its output directory, yet the status
endpoint reports not_found, because it searches only for `*.mp4`. -/
theorem c4_counterexample :
    strEndsWith "video_1.gif" ".gif" = true ∧
    get_render_statusB [⟨"video_1.gif", [0, 1, 2]⟩] "r1" =
      ⟨200, [("request_id", JVal.s "r1"), ("status", JVal.s "not_found"),
             ("message", JVal.s "Video file not found")]⟩ := by
  exact ⟨by decide, by decide⟩

/-- Witness for C4 (amended) on a directory holding an mp4 file. -/
theorem c4_witness :
    get_render_statusB [⟨"video_9.mp4", [5, 6]⟩] "r2" =
      ⟨200, [("request_id", JVal.s "r2"), ("status", JVal.s "completed"),
             ("file_size", JVal.n 2),
             ("download_url", JVal.s ("/download/" ++ "r2"))]⟩ := by
  exact (c4_status_mp4 [⟨"video_9.mp4", [5, 6]⟩] "r2").2 ⟨"video_9.mp4", [5, 6]⟩ [] (by decide)

/-- Claim C6 (confirmed): for every invocation of `render_script` in
either variant and every exit path (success, validation failure,
subprocess non-zero exit, timeout, upload fault), the scratch script
file derived from the request identifier is absent after the operation
returns, and the request's output directory is never removed by the
operation. -/
theorem c6_cleanup (envA : EnvA) (envB : EnvB) (s rid : String)
    (q f sn : Option String) (rb : Bool) :
    (render_scriptA envA s rid q f sn).2.scriptFilePresent = false ∧
    (render_scriptA envA s rid q f sn).2.outputDirRemoved = false ∧
    (render_scriptB envB s rid q f sn rb).2.scriptFilePresent = false ∧
    (render_scriptB envB s rid q f sn rb).2.outputDirRemoved = false := by
  refine ⟨?_, ?_, ?_, ?_⟩
  · simp [render_scriptA, Effects.scriptFilePresent]
  · rw [render_scriptA]
    dsimp only
    repeat' split
    all_goals simp [effRun, effNone]
  · simp [render_scriptB, Effects.scriptFilePresent]
  · rw [render_scriptB]
    dsimp only
    repeat' split
    all_goals simp [effRun, effNone]

/-- Claim C3 (amended): for every script that passes the denylist and
manim-import checks, validation rejects it exactly when the text lacks
the substring `class` OR lacks the substring `Scene`; it passes this
check only when both are present. -/
theorem c3_scene_check (s : String)
    (hden : dangerous_imports.all (fun d => !strHasSub s d) = true)
    (himp : (strHasSub s "from manim import" || strHasSub s "import manim") = true) :
    (validate_script s).1 = false ↔
      (strHasSub s "class" = false ∨ strHasSub s "Scene" = false) := by
  have hnone : dangerous_imports.find? (fun d => strHasSub s d) = none := by
    rw [List.find?_eq_none]
    intro x hx
    have hh := (List.all_eq_true.mp hden) x hx
    simp at hh
    simp [hh]
  have hAB : (!strHasSub s "from manim import" && !strHasSub s "import manim") = false := by
    rcases (Bool.or_eq_true _ _).mp himp with hor | hor <;> simp [hor]
  rw [validate_script, hnone]
  simp only [hAB, Bool.false_eq_true, if_false]
  cases hc : strHasSub s "class" <;> cases hsc : strHasSub s "Scene" <;> simp [hc, hsc]

/-- Counterexample to C3 as stated: a script containing `class` (one
of the two substrings) but not `Scene`, passing the denylist and
manim-import checks, is nevertheless rejected. -/
theorem c3_counterexample :
    dangerous_imports.all (fun d => !strHasSub "import manim\nclass C" d) = true ∧
    strHasSub "import manim\nclass C" "import manim" = true ∧
    strHasSub "import manim\nclass C" "class" = true ∧
    validate_script "import manim\nclass C" =
      (false, "Script must contain a Scene class") := by
  exact ⟨by decide, by decide, by decide, by decide⟩

/-- Witness for C3 (amended) at a script containing both substrings. -/
theorem c3_witness :
    ((validate_script "from manim import *\nclass X(Scene): pass").1 = false ↔
      (strHasSub "from manim import *\nclass X(Scene): pass" "class" = false ∨
       strHasSub "from manim import *\nclass X(Scene): pass" "Scene" = false)) := by
  exact c3_scene_check "from manim import *\nclass X(Scene): pass" (by decide) (by decide)

/-- Claim C7 (confirmed): for every script text containing the literal
substring `eval` anywhere, `validate_script` returns failure, and
`render_script` of either variant returns a failure result without
launching the rendering subprocess. -/
theorem c7_eval_rejected (s : String) (envA : EnvA) (envB : EnvB)
    (rid : String) (q f sn : Option String) (rb : Bool)
    (h : strHasSub s "eval" = true) :
    (validate_script s).1 = false ∧
    dictSuccess (render_scriptA envA s rid q f sn).1 = false ∧
    (render_scriptA envA s rid q f sn).2.subprocInvoked = false ∧
    dictSuccess (render_scriptB envB s rid q f sn rb).1 = false ∧
    (render_scriptB envB s rid q f sn rb).2.subprocInvoked = false := by
  have hsome : (dangerous_imports.find? (fun d => strHasSub s d)).isSome := by
    rw [List.find?_isSome]
    exact ⟨"eval", by decide, h⟩
  obtain ⟨d, hd⟩ := Option.isSome_iff_exists.mp hsome
  have hval : (validate_script s).1 = false := by
    rw [validate_script, hd]
  refine ⟨hval, ?_, ?_, ?_, ?_⟩
  · simp [render_scriptA, hval, dictSuccess, failDict]
  · simp [render_scriptA, hval, effNone]
  · simp [render_scriptB, hval, dictSuccess, failDict]
  · simp [render_scriptB, hval, effNone]

/-- Witness for C7 at the script "evaluate" (which contains `eval`
only incidentally). -/
theorem c7_witness :
    (validate_script "evaluate").1 = false ∧
    dictSuccess (render_scriptA
      ⟨SubprocOutcome.timeoutExpired, [], false, none, 0, "T"⟩
      "evaluate" "r" none none none).1 = false ∧
    (render_scriptA ⟨SubprocOutcome.timeoutExpired, [], false, none, 0, "T"⟩
      "evaluate" "r" none none none).2.subprocInvoked = false ∧
    dictSuccess (render_scriptB ⟨SubprocOutcome.timeoutExpired, [], 0, "T"⟩
      "evaluate" "r" none none none false).1 = false ∧
    (render_scriptB ⟨SubprocOutcome.timeoutExpired, [], 0, "T"⟩
      "evaluate" "r" none none none false).2.subprocInvoked = false := by
  exact c7_eval_rejected "evaluate"
    ⟨SubprocOutcome.timeoutExpired, [], false, none, 0, "T"⟩
    ⟨SubprocOutcome.timeoutExpired, [], 0, "T"⟩ "r" none none none false (by decide)

/-- The code's `quality_mapping.get(quality, 'm')` lookup computes the
fixed table the spec describes. -/
theorem lookup_quality_eq_claim (q : String) :
    (quality_mapping.lookup q).getD "m" = claimQualityFlag q := by
  rcases eq_or_ne q "low_quality" with rfl | h1
  · decide
  rcases eq_or_ne q "medium_quality" with rfl | h2
  · decide
  rcases eq_or_ne q "high_quality" with rfl | h3
  · decide
  rcases eq_or_ne q "production_quality" with rfl | h4
  · decide
  rcases eq_or_ne q "4k_quality" with rfl | h5
  · decide
  have b1 : (q == "low_quality") = false := beq_eq_false_iff_ne.mpr h1
  have b2 : (q == "medium_quality") = false := beq_eq_false_iff_ne.mpr h2
  have b3 : (q == "high_quality") = false := beq_eq_false_iff_ne.mpr h3
  have b4 : (q == "production_quality") = false := beq_eq_false_iff_ne.mpr h4
  have b5 : (q == "4k_quality") = false := beq_eq_false_iff_ne.mpr h5
  simp [quality_mapping, claimQualityFlag, List.lookup, b1, b2, b3, b4, b5, h1, h2, h3, h4, h5]

/-- Claim C9 (confirmed): for every (non-falsy) quality string,
variant A passes the subprocess `--quality` followed by the short flag
from the fixed table (low_quality→l, medium_quality→m, high_quality→h,
production_quality→p, 4k_quality→k, anything else defaults to m), while
variant B passes the quality name directly as the long-form flag
`--<quality>` with no mapping table; all other arguments agree. -/
theorem c9_quality_flag (envA : EnvA) (envB : EnvB) (s rid : String)
    (q : String) (f sn : Option String) (rb : Bool)
    (hq : q.isEmpty = false)
    (hvalid : (validate_script s).1 = true) :
    (render_scriptA envA s rid (some q) f sn).2.cmd =
      ["manim", TEMP_DIR ++ "/script_" ++ rid ++ ".py", "--output_file",
       "video_" ++ rid, "--media_dir", OUTPUT_DIR ++ "/" ++ rid,
       "--quality", claimQualityFlag q, "--format", pyOr f DEFAULT_FORMAT,
       "--disable_caching"] ++ (if pyTruthy sn then [sn.getD ""] else []) ∧
    (render_scriptB envB s rid (some q) f sn rb).2.cmd =
      ["manim", TEMP_DIR ++ "/script_" ++ rid ++ ".py", "--output_file",
       "video_" ++ rid, "--media_dir", OUTPUT_DIR ++ "/" ++ rid,
       "--" ++ q, "--format", pyOr f DEFAULT_FORMAT,
       "--disable_caching"] ++ (if pyTruthy sn then [sn.getD ""] else []) := by
  have hpy : pyOr (some q) DEFAULT_QUALITY = q := by simp [pyOr, hq]
  constructor
  · rw [render_scriptA]
    simp only [hvalid, if_true, hpy, lookup_quality_eq_claim]
    repeat' split
    all_goals simp [effRun]
  · rw [render_scriptB]
    simp only [hvalid, if_true, hpy]
    repeat' split
    all_goals simp [effRun]

/-- Witness for C9 at quality "4k_quality". -/
theorem c9_witness :
    (render_scriptA ⟨SubprocOutcome.timeoutExpired, [], false, none, 0, "T"⟩
      "from manim import *\nclass X(Scene): pass" "r" (some "4k_quality") none none).2.cmd =
      ["manim", TEMP_DIR ++ "/script_" ++ "r" ++ ".py", "--output_file",
       "video_" ++ "r", "--media_dir", OUTPUT_DIR ++ "/" ++ "r",
       "--quality", claimQualityFlag "4k_quality", "--format", pyOr none DEFAULT_FORMAT,
       "--disable_caching"] ++ (if pyTruthy none then [(none : Option String).getD ""] else []) ∧
    (render_scriptB ⟨SubprocOutcome.timeoutExpired, [], 0, "T"⟩
      "from manim import *\nclass X(Scene): pass" "r" (some "4k_quality") none none false).2.cmd =
      ["manim", TEMP_DIR ++ "/script_" ++ "r" ++ ".py", "--output_file",
       "video_" ++ "r", "--media_dir", OUTPUT_DIR ++ "/" ++ "r",
       "--" ++ "4k_quality", "--format", pyOr none DEFAULT_FORMAT,
       "--disable_caching"] ++ (if pyTruthy none then [(none : Option String).getD ""] else []) := by
  exact c9_quality_flag ⟨SubprocOutcome.timeoutExpired, [], false, none, 0, "T"⟩
    ⟨SubprocOutcome.timeoutExpired, [], 0, "T"⟩
    "from manim import *\nclass X(Scene): pass" "r" "4k_quality" none none false
    (by decide) (by decide)

/-- Every variant-A renderer result is either the uniform failure dict
or reports success. -/
theorem render_scriptA_shape (env : EnvA) (s rid : String) (q f sn : Option String) :
    (∃ e, (render_scriptA env s rid q f sn).1 = failDict e rid env.timestamp) ∨
    dictSuccess (render_scriptA env s rid q f sn).1 = true := by
  rw [render_scriptA]
  dsimp only
  repeat' split
  all_goals first
    | exact Or.inl ⟨_, rfl⟩
    | exact Or.inr rfl

/-- Every variant-B renderer result is either the uniform failure dict
or reports success. -/
theorem render_scriptB_shape (env : EnvB) (s rid : String) (q f sn : Option String)
    (rb : Bool) :
    (∃ e, (render_scriptB env s rid q f sn rb).1 = failDict e rid env.timestamp) ∨
    dictSuccess (render_scriptB env s rid q f sn rb).1 = true := by
  rw [render_scriptB]
  dsimp only
  repeat' split
  all_goals first
    | exact Or.inl ⟨_, rfl⟩
    | exact Or.inr rfl

/-- Claim C5 (amended): every failing response of POST /render in
either variant carries a non-empty JSON body with an `error` field, and
every render-failure response (HTTP 500) carries the full structured
shape success=false / error / request_id / timestamp; malformed-request
failures (HTTP 400), however, carry only the error field.  No failure
returns an empty body. -/
theorem c5_failure_shape (envA : EnvA) (envB : EnvB) (freshId : String)
    (data : Option ReqBody) :
    ((render_videoA envA freshId data).1.status ≠ 200 →
      (∃ m, (render_videoA envA freshId data).1.body.lookup "error" = some (JVal.s m)) ∧
      (render_videoA envA freshId data).1.body ≠ [] ∧
      ((render_videoA envA freshId data).1.status = 500 →
        ∃ e, (render_videoA envA freshId data).1.body = failDict e freshId envA.timestamp)) ∧
    ((render_videoB envB freshId data).1.status ≠ 200 →
      (∃ m, (render_videoB envB freshId data).1.body.lookup "error" = some (JVal.s m)) ∧
      (render_videoB envB freshId data).1.body ≠ [] ∧
      ((render_videoB envB freshId data).1.status = 500 →
        ∃ e, (render_videoB envB freshId data).1.body = failDict e freshId envB.timestamp)) := by
  constructor
  · intro hne
    match data with
    | none =>
      refine ⟨⟨"No JSON data provided", rfl⟩, by simp [render_videoA], ?_⟩
      intro h500
      simp [render_videoA] at h500
    | some d =>
      by_cases hs : pyTruthy d.script = true
      · rcases render_scriptA_shape envA (d.script.getD "") freshId
          (some (d.quality.getD DEFAULT_QUALITY)) (some (d.format.getD DEFAULT_FORMAT))
          d.scene_name with ⟨e, he⟩ | hsucc
        · have hbody : (render_videoA envA freshId (some d)).1.body =
              failDict e freshId envA.timestamp := by
            simp [render_videoA, hs, he]
          refine ⟨⟨e, ?_⟩, ?_, fun _ => ⟨e, hbody⟩⟩
          · rw [hbody]; rfl
          · rw [hbody]; simp [failDict]
        · exfalso
          apply hne
          simp [render_videoA, hs, hsucc]
      · have hs' : pyTruthy d.script = false := by simpa using hs
        refine ⟨⟨"No script content provided", ?_⟩, ?_, ?_⟩
        · simp [render_videoA, hs']
        · simp [render_videoA, hs']
        · intro h500
          simp [render_videoA, hs'] at h500
  · intro hne
    match data with
    | none =>
      refine ⟨⟨"No JSON data provided", rfl⟩, by simp [render_videoB], ?_⟩
      intro h500
      simp [render_videoB] at h500
    | some d =>
      by_cases hs : pyTruthy d.script = true
      · rcases render_scriptB_shape envB (d.script.getD "") freshId
          (some (d.quality.getD DEFAULT_QUALITY)) (some (d.format.getD DEFAULT_FORMAT))
          d.scene_name d.return_base64 with ⟨e, he⟩ | hsucc
        · have hbody : (render_videoB envB freshId (some d)).1.body =
              failDict e freshId envB.timestamp := by
            simp [render_videoB, hs, he]
          refine ⟨⟨e, ?_⟩, ?_, fun _ => ⟨e, hbody⟩⟩
          · rw [hbody]; rfl
          · rw [hbody]; simp [failDict]
        · exfalso
          apply hne
          simp [render_videoB, hs, hsucc]
      · have hs' : pyTruthy d.script = false := by simpa using hs
        refine ⟨⟨"No script content provided", ?_⟩, ?_, ?_⟩
        · simp [render_videoB, hs']
        · simp [render_videoB, hs']
        · intro h500
          simp [render_videoB, hs'] at h500

/-- Counterexample to C5 as stated: the malformed-request failure
(missing body) returns a body with only an `error` field — no
success=false, no request_id, no timestamp. -/
theorem c5_counterexample :
    (render_videoA ⟨SubprocOutcome.timeoutExpired, [], false, none, 0, "T"⟩ "rid" none).1 =
      ⟨400, [("error", JVal.s "No JSON data provided")]⟩ ∧
    (render_videoA ⟨SubprocOutcome.timeoutExpired, [], false, none, 0, "T"⟩
      "rid" none).1.body.lookup "success" = none ∧
    (render_videoA ⟨SubprocOutcome.timeoutExpired, [], false, none, 0, "T"⟩
      "rid" none).1.body.lookup "request_id" = none ∧
    (render_videoA ⟨SubprocOutcome.timeoutExpired, [], false, none, 0, "T"⟩
      "rid" none).1.body.lookup "timestamp" = none := by
  exact ⟨rfl, rfl, rfl, rfl⟩

/-- Witness for C5 (amended) at a missing request body. -/
theorem c5_witness :
    ((render_videoA ⟨SubprocOutcome.timeoutExpired, [], false, none, 0, "T"⟩
        "rid" none).1.status ≠ 200 →
      (∃ m, (render_videoA ⟨SubprocOutcome.timeoutExpired, [], false, none, 0, "T"⟩
        "rid" none).1.body.lookup "error" = some (JVal.s m)) ∧
      (render_videoA ⟨SubprocOutcome.timeoutExpired, [], false, none, 0, "T"⟩
        "rid" none).1.body ≠ [] ∧
      ((render_videoA ⟨SubprocOutcome.timeoutExpired, [], false, none, 0, "T"⟩
          "rid" none).1.status = 500 →
        ∃ e, (render_videoA ⟨SubprocOutcome.timeoutExpired, [], false, none, 0, "T"⟩
          "rid" none).1.body = failDict e "rid" "T")) := by
  exact (c5_failure_shape ⟨SubprocOutcome.timeoutExpired, [], false, none, 0, "T"⟩
    ⟨SubprocOutcome.timeoutExpired, [], 0, "T"⟩ "rid" none).1

/-- Claim C2 (amended): for every POST /render request whose body is
missing or lacks a non-empty `script` field, both variants return HTTP
400 with an error-only payload, the Renderer is not called and no
filesystem write or subprocess invocation occurs; a request identifier
is, however, generated before the body is parsed (and discarded
unused). -/
theorem c2_missing_script_400 (envA : EnvA) (envB : EnvB) (freshId : String)
    (data : Option ReqBody)
    (h : data = none ∨ ∃ d, data = some d ∧ pyTruthy d.script = false) :
    ((render_videoA envA freshId data).1.status = 400 ∧
     (∃ m, (render_videoA envA freshId data).1.body = [("error", JVal.s m)]) ∧
     (render_videoA envA freshId data).2.rendererCalled = false ∧
     (render_videoA envA freshId data).2.renderEffects = none ∧
     (render_videoA envA freshId data).2.uuidGenerated = true) ∧
    ((render_videoB envB freshId data).1.status = 400 ∧
     (∃ m, (render_videoB envB freshId data).1.body = [("error", JVal.s m)]) ∧
     (render_videoB envB freshId data).2.rendererCalled = false ∧
     (render_videoB envB freshId data).2.renderEffects = none ∧
     (render_videoB envB freshId data).2.uuidGenerated = true) := by
  rcases h with rfl | ⟨d, rfl, hd⟩
  · exact ⟨⟨rfl, ⟨_, rfl⟩, rfl, rfl, rfl⟩, ⟨rfl, ⟨_, rfl⟩, rfl, rfl, rfl⟩⟩
  · constructor
    · refine ⟨?_, ⟨"No script content provided", ?_⟩, ?_, ?_, ?_⟩ <;>
        simp [render_videoA, hd]
    · refine ⟨?_, ⟨"No script content provided", ?_⟩, ?_, ?_, ?_⟩ <;>
        simp [render_videoB, hd]

/-- Witness for C2 (amended) at a body whose `script` is the empty
string. -/
theorem c2_witness :
    ((render_videoA ⟨SubprocOutcome.timeoutExpired, [], false, none, 0, "T"⟩ "fresh"
        (some ⟨some "", none, none, none, false⟩)).1.status = 400 ∧
     (∃ m, (render_videoA ⟨SubprocOutcome.timeoutExpired, [], false, none, 0, "T"⟩ "fresh"
        (some ⟨some "", none, none, none, false⟩)).1.body = [("error", JVal.s m)]) ∧
     (render_videoA ⟨SubprocOutcome.timeoutExpired, [], false, none, 0, "T"⟩ "fresh"
        (some ⟨some "", none, none, none, false⟩)).2.rendererCalled = false ∧
     (render_videoA ⟨SubprocOutcome.timeoutExpired, [], false, none, 0, "T"⟩ "fresh"
        (some ⟨some "", none, none, none, false⟩)).2.renderEffects = none ∧
     (render_videoA ⟨SubprocOutcome.timeoutExpired, [], false, none, 0, "T"⟩ "fresh"
        (some ⟨some "", none, none, none, false⟩)).2.uuidGenerated = true) ∧
    ((render_videoB ⟨SubprocOutcome.timeoutExpired, [], 0, "T"⟩ "fresh"
        (some ⟨some "", none, none, none, false⟩)).1.status = 400 ∧
     (∃ m, (render_videoB ⟨SubprocOutcome.timeoutExpired, [], 0, "T"⟩ "fresh"
        (some ⟨some "", none, none, none, false⟩)).1.body = [("error", JVal.s m)]) ∧
     (render_videoB ⟨SubprocOutcome.timeoutExpired, [], 0, "T"⟩ "fresh"
        (some ⟨some "", none, none, none, false⟩)).2.rendererCalled = false ∧
     (render_videoB ⟨SubprocOutcome.timeoutExpired, [], 0, "T"⟩ "fresh"
        (some ⟨some "", none, none, none, false⟩)).2.renderEffects = none ∧
     (render_videoB ⟨SubprocOutcome.timeoutExpired, [], 0, "T"⟩ "fresh"
        (some ⟨some "", none, none, none, false⟩)).2.uuidGenerated = true) := by
  exact c2_missing_script_400 ⟨SubprocOutcome.timeoutExpired, [], false, none, 0, "T"⟩
    ⟨SubprocOutcome.timeoutExpired, [], 0, "T"⟩ "fresh"
    (some ⟨some "", none, none, none, false⟩)
    (Or.inr ⟨⟨some "", none, none, none, false⟩, rfl, by decide⟩)

/-- Counterexample to C2 as stated: on the missing-body path the
handler has already executed `request_id = str(uuid.uuid4())` (line 380
runs before `request.get_json()`), so a request identifier IS generated
on that path. -/
theorem c2_counterexample :
    (render_videoA ⟨SubprocOutcome.timeoutExpired, [], false, none, 0, "T"⟩
      "generated-id" none).1.status = 400 ∧
    (render_videoA ⟨SubprocOutcome.timeoutExpired, [], false, none, 0, "T"⟩
      "generated-id" none).2.uuidGenerated = true := by
  exact ⟨rfl, rfl⟩

/-- Claim C1 (amended): in variant A, when the object-storage upload
raises during a render, the exception re-raised by `_upload_to_gcs` is
caught by `render_script`'s generic exception handler — the same layer
that flattens validation, subprocess, timeout and missing-artifact
failures — and the HTTP client receives 500 with the structured
render-failure body (success=false, error "Rendering failed: <msg>",
request_id, timestamp), not a generic internal error. -/
theorem c1_upload_failure_structured (env : EnvA) (d : ReqBody)
    (freshId e stdout stderr : String) (vf : FsFile) (rest : List FsFile)
    (hscript : pyTruthy d.script = true)
    (hvalid : (validate_script (d.script.getD "")).1 = true)
    (hsub : env.subproc = SubprocOutcome.completed 0 stdout stderr)
    (hfiles : env.outputFiles.filter
        (fun fl => strEndsWith fl.name
          ("." ++ pyOr (some (d.format.getD DEFAULT_FORMAT)) DEFAULT_FORMAT)) =
        vf :: rest)
    (hstor : env.storageAvailable = true)
    (hup : env.uploadError = some e) :
    (render_videoA env freshId (some d)).1 =
      ⟨500, failDict ("Rendering failed: " ++ e) freshId env.timestamp⟩ := by
  have hrender : (render_scriptA env (d.script.getD "") freshId
      (some (d.quality.getD DEFAULT_QUALITY)) (some (d.format.getD DEFAULT_FORMAT))
      d.scene_name).1 = failDict ("Rendering failed: " ++ e) freshId env.timestamp := by
    rw [render_scriptA]
    simp only [hvalid, if_true, hsub, hfiles, hstor, hup]
    rfl
  simp [render_videoA, hscript, hrender, dictSuccess, failDict]

/-- Counterexample to C1 as stated: with a storage client configured
and the upload raising "gcs down", the response is the structured
render-failure shape (including request_id), contradicting the claim
that the failure surfaces as a generic internal error without that
shape. -/
theorem c1_counterexample :
    (render_videoA ⟨SubprocOutcome.completed 0 "out" "err",
        [⟨"video_r.mp4", [1, 2, 3]⟩], true, some "gcs down", 1, "T"⟩ "r1"
      (some ⟨some "from manim import *\nclass X(Scene): pass", none, none, none, false⟩)).1 =
      ⟨500, failDict ("Rendering failed: " ++ "gcs down") "r1" "T"⟩ := by
  decide

/-- Witness for C1 (amended) at a concrete failing upload. -/
theorem c1_witness :
    (render_videoA ⟨SubprocOutcome.completed 0 "out" "err",
        [⟨"video_r.mp4", [1, 2, 3]⟩], true, some "gcs down", 1, "T"⟩ "r2"
      (some ⟨some "import manim\nclass Y(Scene): pass", none, none, none, false⟩)).1 =
      ⟨500, failDict ("Rendering failed: " ++ "gcs down") "r2" "T"⟩ := by
  exact c1_upload_failure_structured
    ⟨SubprocOutcome.completed 0 "out" "err", [⟨"video_r.mp4", [1, 2, 3]⟩],
     true, some "gcs down", 1, "T"⟩
    ⟨some "import manim\nclass Y(Scene): pass", none, none, none, false⟩
    "r2" "gcs down" "out" "err" ⟨"video_r.mp4", [1, 2, 3]⟩ []
    (by decide) (by decide) rfl (by decide) rfl rfl

/-- Claim C8 (confirmed): in variant B, for every render with
return_base64 set that succeeds, base64-decoding the `video_base64`
field reproduces the artifact file's contents byte for byte, and the
reported `file_size` equals the artifact's byte length. -/
theorem c8_base64_roundtrip (env : EnvB) (s rid : String) (q f sn : Option String)
    (stdout stderr : String) (vf : FsFile) (rest : List FsFile)
    (hvalid : (validate_script s).1 = true)
    (hsub : env.subproc = SubprocOutcome.completed 0 stdout stderr)
    (hfiles : env.outputFiles.filter
        (fun fl => strEndsWith fl.name ("." ++ pyOr f DEFAULT_FORMAT)) = vf :: rest)
    (hbytes : ∀ b ∈ vf.contents, b < 256) :
    dictSuccess (render_scriptB env s rid q f sn true).1 = true ∧
    (render_scriptB env s rid q f sn true).1.lookup "file_size" =
      some (JVal.n vf.contents.length) ∧
    ∃ dataStr, (render_scriptB env s rid q f sn true).1.lookup "video_base64" =
      some (JVal.s dataStr) ∧ b64decode dataStr = some vf.contents := by
  refine ⟨?_, ?_, ⟨b64encode vf.contents, ?_, b64_roundtrip vf.contents hbytes⟩⟩
  · rw [render_scriptB]
    simp only [hvalid, if_true, hsub, hfiles]
    rfl
  · rw [render_scriptB]
    simp only [hvalid, if_true, hsub, hfiles]
    rfl
  · rw [render_scriptB]
    simp only [hvalid, if_true, hsub, hfiles]
    rfl

/-- Witness for C8 at a three-byte artifact. -/
theorem c8_witness :
    dictSuccess (render_scriptB ⟨SubprocOutcome.completed 0 "" "",
        [⟨"video_r.mp4", [0, 1, 255]⟩], 2, "TS"⟩
      "from manim import *\nclass Z(Scene): pass" "r9" none none none true).1 = true ∧
    (render_scriptB ⟨SubprocOutcome.completed 0 "" "",
        [⟨"video_r.mp4", [0, 1, 255]⟩], 2, "TS"⟩
      "from manim import *\nclass Z(Scene): pass" "r9" none none none true).1.lookup
        "file_size" = some (JVal.n ([0, 1, 255] : List Nat).length) ∧
    ∃ dataStr, (render_scriptB ⟨SubprocOutcome.completed 0 "" "",
        [⟨"video_r.mp4", [0, 1, 255]⟩], 2, "TS"⟩
      "from manim import *\nclass Z(Scene): pass" "r9" none none none true).1.lookup
        "video_base64" = some (JVal.s dataStr) ∧
      b64decode dataStr = some [0, 1, 255] := by
  exact c8_base64_roundtrip
    ⟨SubprocOutcome.completed 0 "" "", [⟨"video_r.mp4", [0, 1, 255]⟩], 2, "TS"⟩
    "from manim import *\nclass Z(Scene): pass" "r9" none none none "" ""
    ⟨"video_r.mp4", [0, 1, 255]⟩ [] (by decide) rfl (by decide) (by decide)
